import Mathlib

/-!
Verification development for the igor AAA server (Diameter/RADIUS).

Shallow embedding of:
 - the Diameter peer actor event loop (diampeer/diamPeer.go),
 - the FreeRADIUS dictionary parser (core/freeradius_parser.go),
 - the RADIUS server read loop (radiusserver package).

Collaborator packages whose sources are not in the repository snapshot
(diamcodec, the peers configuration, the radius codec) are represented by
abstract fields and environment functions; each such definition carries a
doc comment naming what it models.
-/

namespace Diampeer

/-- Peer status constants, as in diamPeer.go. -/
def StatusConnecting : Nat := 1

/-- Peer status: TCP connection established, CER/CEA not completed. -/
def StatusConnected : Nat := 2

/-- Peer status: CER/CEA handshake completed. -/
def StatusEngaged : Nat := 3

/-- Peer status: no more requests allowed. -/
def StatusClosing : Nat := 4

/-- Peer status: event loop not running. -/
def StatusClosed : Nat := 5

/-- Modelled from the spec: diamcodec.DIAMETER_SUCCESS result code (2001),
the diamcodec sources being absent from the snapshot. -/
def DIAMETER_SUCCESS : Nat := 2001

/-- Modelled from the spec: diamcodec.DIAMETER_UNKNOWN_PEER result code (3010). -/
def DIAMETER_UNKNOWN_PEER : Nat := 3010

/-- Modelled from the spec: the fields of diamcodec.DiameterMessage consulted by
the peer event loop.  `originHost` is the result of GetAVP("Origin-Host")
(`none` when the AVP is absent, i.e. GetAVP returns an error) and `resultCode`
is the result of GetResultCode. -/
structure DiameterMessage where
  isRequest : Bool
  applicationId : Nat
  commandName : String
  hopByHopId : Nat
  originHost : Option String
  resultCode : Nat
deriving DecidableEq

/-- Modelled from the spec: the fields of config.DiameterPeer used by the
event loop (identity and watchdog interval); the peers configuration
package is absent from the snapshot. -/
structure DiameterPeerConfig where
  diameterHost : String
  watchdogIntervalMillis : Nat
deriving DecidableEq

/-- Values delivered on a pending-request response channel
(`*chan interface{}` in the source): either a Diameter answer or a Go error. -/
inductive ChanValue where
  | answer (m : DiameterMessage)
  | goError (e : String)
deriving DecidableEq

/-- The inbound events of the peer actor (the message types consumed by
`eventLoop`).  Response channels are represented by numeric identifiers. -/
inductive Event where
  | connectionEstablished
  | connectionError (e : String)
  | readEOF
  | readError (e : String)
  | writeError (e : String)
  | peerUpMsg (diameterHost : String)
  | peerCloseCommand
  | egress (msg : DiameterMessage) (rchan : Option Nat)
  | ingress (msg : DiameterMessage)
  | cancelRequest (hopByHopId : Nat)
  | watchdog
deriving DecidableEq

/-- Side effects produced by one iteration of the event loop: sends to the
own event channel, control-channel events, channel operations on pending
request channels, socket operations and instrumentation counters. -/
inductive Effect where
  | toSelf (ev : Event)
  | controlPeerUp (diameterHost : String)
  | controlPeerDown (e : Option String)
  | controlPeerClose
  | chanSend (ch : Nat) (v : ChanValue)
  | chanClose (ch : Nat)
  | writeMsg (m : DiameterMessage)
  | closeConnection
  | cancelConnectContext
  | startReadLoop
  | restartTicker (millis : Nat)
  | metric (name : String)
  | invokeHandler (m : DiameterMessage)
deriving DecidableEq

/-- The mutable state owned by the actor: status, outstanding requests map
(hop-by-hop id to response channel), unanswered watchdog counter, whether a
connect context and a connection exist, and the peer configuration. -/
structure PeerState where
  status : Nat
  requestsMap : List (Nat × Nat)
  outstandingDWA : Int
  hasCancel : Bool
  hasConnection : Bool
  peerConfig : DiameterPeerConfig
deriving DecidableEq

/-- Environment for one step: outcome of the socket write, and the results of
the configuration lookups performed by handleCER (ValidateIncomingAddress on
the reported Origin-Host, and FindPeer). -/
structure Env where
  writeOk : Bool
  aclOk : String → Bool
  findPeer : String → Option DiameterPeerConfig

/-- Result of processing one inbound event: the new state, the effects in
program order, and whether the event loop returns (terminates). -/
structure StepResult where
  state : PeerState
  effects : List Effect
  returns : Bool
deriving DecidableEq

/-- Lookup in the outstanding requests map. -/
def mapLookup (k : Nat) : List (Nat × Nat) → Option Nat
  | [] => none
  | (k', v) :: rest => if k' = k then some v else mapLookup k rest

/-- Insert (overwrite) in the outstanding requests map. -/
def mapInsert (k v : Nat) (m : List (Nat × Nat)) : List (Nat × Nat) :=
  (k, v) :: m.filter (fun p => p.1 ≠ k)

/-- Deletion from the outstanding requests map. -/
def mapErase (k : Nat) (m : List (Nat × Nat)) : List (Nat × Nat) :=
  m.filter (fun p => p.1 ≠ k)

/-- Modelled from the spec: diamcodec.NewInstanceDiameterAnswer — the answer
copies command code, application id and the identifiers from the request;
origin stamping is abstracted (the claims never read the produced answer's
Origin-Host), and a message without a Result-Code AVP reads code 0. -/
def newDiameterAnswer (req : DiameterMessage) : DiameterMessage :=
  { isRequest := false
    applicationId := req.applicationId
    commandName := req.commandName
    hopByHopId := req.hopByHopId
    originHost := none
    resultCode := 0 }

/-- Models `m.Add("Result-Code", rc)` on a freshly built answer. -/
def addResultCode (m : DiameterMessage) (rc : Nat) : DiameterMessage :=
  { m with resultCode := rc }

/-- Modelled from the spec: the CER built by
NewInstanceDiameterRequest(ci, "Base", "Capabilities-Exchange") plus
pushCEAttributes; hop-by-hop id generation is abstracted as 0. -/
def mkCER : DiameterMessage :=
  { isRequest := true, applicationId := 0, commandName := "Capabilities-Exchange"
    hopByHopId := 0, originHost := none, resultCode := 0 }

/-- Modelled from the spec: the DWR built by
NewInstanceDiameterRequest(ci, "Base", "Device-Watchdog"). -/
def mkDWR : DiameterMessage :=
  { isRequest := true, applicationId := 0, commandName := "Device-Watchdog"
    hopByHopId := 0, originHost := none, resultCode := 0 }

/-- Embedding of DiameterPeer.handleCER: returns the reported Origin-Host on
success (`none` models the `error` return), the updated state (the peer
configuration is adopted on success) and the emitted effects.  A CEA error
answer is emitted only on the ACL-failure and peer-not-found paths
(`sendErrorMessage` stays false when the status is not Connected or the
Origin-Host AVP is absent). -/
def handleCER (env : Env) (st : PeerState) (request : DiameterMessage) :
    Option String × PeerState × List Effect :=
  if st.status ≠ StatusConnected then
    (none, st, [])
  else
    match request.originHost with
    | none => (none, st, [])
    | some originHost =>
      if env.aclOk originHost then
        match env.findPeer originHost with
        | some peerConfig =>
          (some originHost, { st with peerConfig := peerConfig },
            [Effect.toSelf (Event.egress
              (addResultCode (newDiameterAnswer request) DIAMETER_SUCCESS) none)])
        | none =>
          (none, st,
            [Effect.toSelf (Event.egress
              (addResultCode (newDiameterAnswer request) DIAMETER_UNKNOWN_PEER) none)])
      else
        (none, st,
          [Effect.toSelf (Event.egress
            (addResultCode (newDiameterAnswer request) DIAMETER_UNKNOWN_PEER) none)])

/-- Embedding of one iteration of DiameterPeer.eventLoop: processing of a
single inbound event, mirroring the Go switch case by case. -/
def eventLoopStep (env : Env) (st : PeerState) (ev : Event) : StepResult :=
  match ev with
  | .connectionEstablished =>
    { state := { st with hasConnection := true, status := StatusConnected }
      effects := [.startReadLoop, .toSelf (.egress mkCER none)]
      returns := false }
  | .connectionError e =>
    { state := { st with status := StatusClosed }
      effects := [.controlPeerDown (some e)]
      returns := true }
  | .readEOF =>
    { state := { st with status := StatusClosed }
      effects := [.controlPeerDown none]
      returns := true }
  | .readError e =>
    { state := { st with status := StatusClosed }
      effects := [.controlPeerDown (some e)]
      returns := true }
  | .writeError _ =>
    -- the source sends PeerCloseCommand on the ControlChannel here
    { state := { st with status := StatusClosing }
      effects := [.controlPeerClose]
      returns := false }
  | .peerUpMsg host =>
    { state := { st with status := StatusEngaged }
      effects := [.controlPeerUp host,
                  .restartTicker st.peerConfig.watchdogIntervalMillis]
      returns := false }
  | .peerCloseCommand =>
    -- NOTE: the drain of the outstanding requests map is a TODO in the
    -- source; the map is left untouched here, as there.
    { state := { st with status := StatusClosed }
      effects := (if st.hasCancel then [Effect.cancelConnectContext] else []) ++
                 (if st.hasConnection then [Effect.closeConnection] else []) ++
                 [.controlPeerDown none]
      returns := true }
  | .egress msg rchan =>
    if st.status = StatusConnected ∨ st.status = StatusEngaged then
      match mapLookup msg.hopByHopId st.requestsMap, rchan with
      | some _, some ch =>
        { state := st
          effects := [.chanSend ch (.goError "Duplicated HopByHopId")]
          returns := false }
      | _, _ =>
        let writeEffects : List Effect :=
          [.writeMsg msg] ++
          (if env.writeOk then [] else
            [Effect.toSelf (Event.writeError "write error")] ++
            (match rchan with
             | some ch => if msg.isRequest then
                 [Effect.chanSend ch (ChanValue.goError "write error")] else []
             | none => []))
        let st1 := if env.writeOk then st else { st with status := StatusClosing }
        match rchan with
        | some ch =>
          if msg.isRequest then
            { state := { st1 with
                requestsMap := mapInsert msg.hopByHopId ch st1.requestsMap }
              effects := writeEffects ++ [.metric "DiameterRequestSent"]
              returns := false }
          else
            { state := st1
              effects := writeEffects ++ [.metric "DiameterAnswerSent"]
              returns := false }
        | none =>
          { state := st1
            effects := writeEffects ++ [.metric "DiameterAnswerSent"]
            returns := false }
    else
      { state := st, effects := [], returns := false }
  | .ingress msg =>
    if msg.isRequest then
      if msg.applicationId = 0 then
        if msg.commandName = "Capabilities-Exchange" then
          match handleCER env st msg with
          | (none, st1, effs) =>
            { state := st1
              effects := [.metric "DiameterRequestReceived"] ++ effs ++
                         [.toSelf .peerCloseCommand]
              returns := false }
          | (some originHost, st1, effs) =>
            { state := { st1 with status := StatusEngaged }
              effects := [.metric "DiameterRequestReceived"] ++ effs ++
                         [.toSelf (.peerUpMsg originHost)]
              returns := false }
        else if msg.commandName = "Device-Watchdog" then
          { state := st
            effects := [.metric "DiameterRequestReceived",
              .toSelf (.egress (addResultCode (newDiameterAnswer msg) DIAMETER_SUCCESS) none)]
            returns := false }
        else if msg.commandName = "Disconnect-Peer" then
          { state := { st with status := StatusClosing }
            effects := [.metric "DiameterRequestReceived",
              .toSelf (.egress (newDiameterAnswer msg) none),
              .toSelf .peerCloseCommand]
            returns := false }
        else
          { state := st, effects := [.metric "DiameterRequestReceived"], returns := false }
      else
        { state := st
          effects := [.metric "DiameterRequestReceived", .invokeHandler msg]
          returns := false }
    else
      if msg.applicationId = 0 then
        if msg.commandName = "Capabilities-Exchange" then
          let doDisconnect : Bool :=
            match msg.originHost with
            | none => true
            | some oh =>
              if oh ≠ st.peerConfig.diameterHost then true
              else if msg.resultCode ≠ DIAMETER_SUCCESS then true
              else false
          if doDisconnect then
            { state := { st with status := StatusClosing }
              effects := [.metric "DiameterAnswerReceived", .toSelf .peerCloseCommand]
              returns := false }
          else
            { state := st
              effects := [.metric "DiameterAnswerReceived",
                          .toSelf (.peerUpMsg st.peerConfig.diameterHost)]
              returns := false }
        else if msg.commandName = "Device-Watchdog" then
          if msg.resultCode ≠ DIAMETER_SUCCESS then
            { state := { st with status := StatusClosing }
              effects := [.metric "DiameterAnswerReceived", .toSelf .peerCloseCommand]
              returns := false }
          else
            { state := { st with outstandingDWA := st.outstandingDWA - 1 }
              effects := [.metric "DiameterAnswerReceived"]
              returns := false }
        else
          { state := st, effects := [.metric "DiameterAnswerReceived"], returns := false }
      else
        match mapLookup msg.hopByHopId st.requestsMap with
        | none =>
          { state := st
            effects := [.metric "DiameterAnswerReceived", .metric "DiameterAnswerDiscarded"]
            returns := false }
        | some ch =>
          { state := { st with requestsMap := mapErase msg.hopByHopId st.requestsMap }
            effects := [.metric "DiameterAnswerReceived",
                        .chanSend ch (.answer msg), .chanClose ch]
            returns := false }
  | .cancelRequest hopByHopId =>
    match mapLookup hopByHopId st.requestsMap with
    | none => { state := st, effects := [], returns := false }
    | some ch =>
      { state := { st with requestsMap := mapErase hopByHopId st.requestsMap }
        effects := [.chanClose ch]
        returns := false }
  | .watchdog =>
    { state := { st with outstandingDWA := st.outstandingDWA + 1 }
      effects := (if st.outstandingDWA > 2 then [Effect.toSelf Event.peerCloseCommand] else []) ++
                 [.toSelf (.egress mkDWR none)]
      returns := false }

/-- The watchdog-ticker select branch: a tick enqueues a WatchdogMsg only
when the status is Engaged. -/
def watchdogTick (st : PeerState) : List Event :=
  if st.status = StatusEngaged then [Event.watchdog] else []

/-- Outcome of the select in DiameterPeer.DiameterRequest: either the timer
fires first, or the response channel delivers an error or an answer. -/
inductive ReqOutcome where
  | timeout
  | chanError (e : String)
  | chanAnswer (m : DiameterMessage)
deriving DecidableEq

/-- Result of DiameterPeer.DiameterRequest: the returned answer and error,
the events sent to the actor's event channel (in order), and the
instrumentation counters pushed. -/
structure ReqResult where
  answer : Option DiameterMessage
  error : Option String
  sent : List Event
  metrics : List String
deriving DecidableEq

/-- Embedding of DiameterPeer.DiameterRequest: the three validations, then
the egress send; the select outcome is passed as a parameter.  On timer
fire a CancelDiameterRequest with the message's HopByHopId is sent and a
Timeout error returned. -/
def DiameterRequest (status : Nat) (dm : DiameterMessage) (chanId : Nat)
    (outcome : ReqOutcome) : ReqResult :=
  if dm.applicationId = 0 then
    { answer := none
      error := some "should not use this method to send a Base Application message"
      sent := [], metrics := [] }
  else if status ≠ StatusEngaged then
    { answer := none
      error := some ("tried to send a diameter request in a non engaged DiameterPeer. Status is "
        ++ toString status)
      sent := [], metrics := [] }
  else if ¬ dm.isRequest then
    { answer := none, error := some "Diameter message is not a request"
      sent := [], metrics := [] }
  else
    match outcome with
    | .timeout =>
      { answer := none, error := some "Timeout"
        sent := [Event.egress dm (some chanId), Event.cancelRequest dm.hopByHopId]
        metrics := ["DiameterRequestTimeout"] }
    | .chanError e =>
      { answer := none, error := some e
        sent := [Event.egress dm (some chanId)], metrics := [] }
    | .chanAnswer m =>
      { answer := some m, error := none
        sent := [Event.egress dm (some chanId)], metrics := [] }

end Diampeer

namespace Freeradius

/-- A RADIUS attribute entry of the JSON dictionary model (jRadiusAVP). -/
structure JRadiusAVP where
  code : Nat
  name : String
  type : String
  tagged : Bool
  encrypted : Bool
  salted : Bool
  withlen : Bool
  enumValues : List (String × Int)
deriving DecidableEq

/-- Attributes of one vendor (jRadiusVendorAVPs). -/
structure JRadiusVendorAVPs where
  vendorId : Nat
  attributes : List JRadiusAVP
deriving DecidableEq

/-- A vendor entry (jVendor). -/
structure JVendor where
  vendorId : Nat
  vendorName : String
deriving DecidableEq

/-- The dictionary being filled (the relevant fields of jRadiusDict). -/
structure JRadiusDict where
  vendors : List JVendor
  avps : List JRadiusVendorAVPs
deriving DecidableEq

/-- Result of a dictionary load.  `panics` models a Go runtime panic (the
explicit panic in parseRadiusType and index-out-of-range on short lines);
`outOfFuel` models exceeding the include-recursion bound of the embedding. -/
inductive ParseResult where
  | ok (d : JRadiusDict)
  | err (msg : String)
  | panics (msg : String)
  | outOfFuel
deriving DecidableEq

/-- True only for a successful load. -/
def ParseResult.isOk : ParseResult → Bool
  | .ok _ => true
  | _ => false

/-- True only for a load failing with an error value. -/
def ParseResult.isErr : ParseResult → Bool
  | .err _ => true
  | _ => false

/-- Result of processing one dictionary line. -/
inductive LineResult where
  | next (dict : JRadiusDict) (idx : Nat)
  | inc (objName : String)
  | err (msg : String)
  | panics (msg : String)
deriving DecidableEq

/-- True when the line fails the load (error value or panic). -/
def LineResult.isFailure : LineResult → Bool
  | .err _ => true
  | .panics _ => true
  | _ => false

/-- True when the line fails the load with an error value (not a panic). -/
def LineResult.isErr : LineResult → Bool
  | .err _ => true
  | _ => false

/-- Drop leading whitespace characters. -/
def dropLeadingWhite : List Char → List Char
  | [] => []
  | c :: cs => if c.isWhitespace then dropLeadingWhite cs else c :: cs

/-- strings.TrimSpace on a character list: drop whitespace at both ends. -/
def trimChars (cs : List Char) : List Char :=
  (dropLeadingWhite (dropLeadingWhite cs).reverse).reverse

/-- strings.HasPrefix(line, "#") on the trimmed character list. -/
def startsWithHash : List Char → Bool
  | '#' :: _ => true
  | _ => false

/-- Truncation of a line at the first '#' (strings.IndexByte + slice). -/
def stripComment (cs : List Char) : List Char :=
  cs.takeWhile (fun c => c ≠ '#')

/-- strings.Fields: split around whitespace runs, dropping empty fields.
`acc` holds the characters of the current field, reversed. -/
def fieldsAux : List Char → List Char → List String
  | [], acc => if acc = [] then [] else [String.mk acc.reverse]
  | c :: cs, acc =>
    if c.isWhitespace then
      (if acc = [] then fieldsAux cs [] else String.mk acc.reverse :: fieldsAux cs [])
    else fieldsAux cs (c :: acc)

/-- strings.Fields of a character list. -/
def goFields (cs : List Char) : List String := fieldsAux cs []

/-- strings.Split(s, ","): comma-separated pieces (empty pieces kept). -/
def splitCommasAux : List Char → List Char → List String
  | [], acc => [String.mk acc.reverse]
  | c :: cs, acc =>
    if c = ',' then String.mk acc.reverse :: splitCommasAux cs []
    else splitCommasAux cs (c :: acc)

/-- strings.Split(s, ",") on a string. -/
def splitCommas (s : String) : List String := splitCommasAux s.toList []

/-- Digit-string value: `none` unless the character list is nonempty and
all decimal digits. -/
def atoiDigits (cs : List Char) : Option Nat :=
  match cs with
  | [] => none
  | _ =>
    if cs.all (fun c => c.isDigit) then
      some (cs.foldl (fun a c => a * 10 + (c.toNat - 48)) 0)
    else none

/-- strconv.Atoi: optional sign followed by decimal digits
(the 64-bit range check is immaterial for dictionary values and omitted). -/
def atoi (s : String) : Option Int :=
  match s.toList with
  | '+' :: rest => (atoiDigits rest).map (fun n => (n : Int))
  | '-' :: rest => (atoiDigits rest).map (fun n => -(n : Int))
  | cs => (atoiDigits cs).map (fun n => (n : Int))

/-- Go's byte(int) conversion: wrap to 0..255. -/
def toByte (i : Int) : Nat := (i.emod 256).toNat

/-- Go's uint32(int) conversion: wrap to 32 bits. -/
def toUint32 (i : Int) : Nat := (i.emod 4294967296).toNat

/-- strings.HasPrefix(t, "octets"), the freeradius octets[size] form. -/
def hasOctetsSizePrefix (t : String) : Bool :=
  match t.toList with
  | 'o' :: 'c' :: 't' :: 'e' :: 't' :: 's' :: _ => true
  | _ => false

/-- Embedding of parseRadiusType; `none` stands for the panic branch
("unrecognized attribute type"). -/
def parseRadiusType (t : String) : Option String :=
  if t = "integer" ∨ t = "byte" ∨ t = "short" ∨ t = "signed" ∨ t = "time_delta" then
    some "Integer"
  else if t = "string" then some "String"
  else if t = "octets" ∨ t = "abinary" ∨ t = "struct" then some "Octets"
  else if t = "ipaddr" then some "Address"
  else if t = "date" then some "Time"
  else if t = "ipv6addr" then some "IPv6Address"
  else if t = "ipv6prefix" then some "IPv6Prefix"
  else if t = "ifid" then some "InterfaceId"
  else if t = "integer64" then some "Integer64"
  else if t = "vsa" then some "VSA"
  else if hasOctetsSizePrefix t then some "octets"
  else none

/-- The ATTRIBUTE option tokens loop: fold the comma-separated options over
the (tagged, encrypted, salted, withlen) flags; `none` on an unsupported
token. -/
def applyOptions : List String → Bool × Bool × Bool × Bool →
    Option (Bool × Bool × Bool × Bool)
  | [], acc => some acc
  | opt :: rest, (tagged, encrypted, salted, withlen) =>
    if opt = "has_tag" then applyOptions rest (true, encrypted, salted, withlen)
    else if opt = "encrypt=1" then applyOptions rest (tagged, true, salted, withlen)
    else if opt = "encrypt=2" then applyOptions rest (tagged, encrypted, true, true)
    else if opt = "encrypt=8" then applyOptions rest (true, encrypted, true, withlen)
    else if opt = "encrypt=9" then applyOptions rest (tagged, encrypted, true, withlen)
    else if opt = "abinary" then applyOptions rest (tagged, encrypted, salted, withlen)
    else none

/-- The options of an ATTRIBUTE line: flags default to false when there is
no fifth word; only words[4] is consulted. -/
def parseOptions (w : Option String) : Option (Bool × Bool × Bool × Bool) :=
  match w with
  | none => some (false, false, false, false)
  | some optStr => applyOptions (splitCommas optStr) (false, false, false, false)

/-- Replace the element at an index (the slice update
dict.Avps[i].Attributes = append(...)); indices produced by the parser are
always in range. -/
def modifyAt : List α → Nat → (α → α) → List α
  | [], _, _ => []
  | x :: xs, 0, f => f x :: xs
  | x :: xs, Nat.succ n, f => x :: modifyAt xs n f

/-- Map write EnumValues[name] = val (overwrite). -/
def enumInsert (k : String) (v : Int) (m : List (String × Int)) : List (String × Int) :=
  m.filter (fun p => p.1 ≠ k) ++ [(k, v)]

/-- The VALUE loop: update the first attribute with the given name, if any. -/
def updateFirstAttr : List JRadiusAVP → String → (JRadiusAVP → JRadiusAVP) →
    List JRadiusAVP
  | [], _, _ => []
  | a :: rest, nm, f =>
    if a.name = nm then f a :: rest else a :: updateFirstAttr rest nm f

/-- Processing of one tokenized line of the dictionary body: the switch on
words[0].  `lineT` is the trimmed, comment-stripped line used in error
messages.  Out-of-range word accesses of the source (words[1], words[2] on
short lines) are `panics`. -/
def processWords (dict : JRadiusDict) (idx : Nat) (lineT : String)
    (words : List String) : LineResult :=
  match words with
  | [] => .next dict idx
  | w0 :: ws =>
    if w0 = "$INCLUDE" then
      match ws with
      | [] => .panics "index out of range"
      | objName :: _ => .inc objName
    else if w0 = "VENDOR" then
      match ws with
      | name :: code :: _ =>
        match atoi code with
        | none => .err ("invalid VENDOR " ++ lineT)
        | some vendorId =>
          .next { dict with
            vendors := dict.vendors ++ [{ vendorId := toUint32 vendorId, vendorName := name }]
            avps := dict.avps ++ [{ vendorId := toUint32 vendorId, attributes := [] }] } idx
      | _ => .panics "index out of range"
    else if w0 = "BEGIN-VENDOR" then
      match ws with
      | [] => .panics "index out of range"
      | name :: _ =>
        let vendorId :=
          match dict.vendors.find? (fun v => v.vendorName = name) with
          | some v => v.vendorId
          | none => 0
        if vendorId = 0 then .err ("vendor " ++ name ++ " not found")
        else
          .next dict ((dict.avps.findIdx? (fun a => a.vendorId = vendorId)).getD idx)
    else if w0 = "END-VENDOR" then
      .next dict 0
    else if w0 = "ATTRIBUTE" then
      match ws with
      | name :: code :: typ :: rest =>
        match atoi code with
        | none => .err ("invalid ATTRIBUTE " ++ lineT)
        | some codeVal =>
          match parseOptions rest.head? with
          | none => .err ("invalid ATTRIBUTE " ++ lineT)
          | some (tagged, encrypted, salted, withlen) =>
            match parseRadiusType typ with
            | none => .panics ("unrecognized attribute type " ++ typ)
            | some radiusType =>
              if radiusType = "VSA" then .next dict idx
              else
                .next { dict with
                  avps := modifyAt dict.avps idx (fun va =>
                    { va with attributes := va.attributes ++
                      [{ code := toByte codeVal, name := name, type := radiusType
                         tagged := tagged, encrypted := encrypted
                         salted := salted, withlen := withlen, enumValues := [] }] }) } idx
      | _ => .err ("invalid ATTRIBUTE " ++ lineT)
    else if w0 = "VALUE" then
      match ws with
      | attrName :: enumName :: valStr :: _ =>
        match atoi valStr with
        | none => .err ("invalid VALUE " ++ lineT)
        | some val =>
          .next { dict with
            avps := modifyAt dict.avps idx (fun va =>
              { va with attributes := updateFirstAttr va.attributes attrName (fun a =>
                  { a with enumValues := enumInsert enumName val a.enumValues }) }) } idx
      | _ => .err ("invalid VALUE " ++ lineT)
    else
      -- a directive not in the switch is silently skipped
      .next dict idx

/-- Processing of one raw line: trim, skip full-line comments, strip the
trailing comment and tokenize, as the scanner loop does. -/
def processLine (dict : JRadiusDict) (idx : Nat) (line : String) : LineResult :=
  let l := trimChars line.toList
  if startsWithHash l then .next dict idx
  else processWords dict idx (String.mk (stripComment l)) (goFields (stripComment l))

/-- The token list a raw line contributes to the switch (empty for skipped
comment lines). -/
def lineWords (line : String) : List String :=
  let l := trimChars line.toList
  if startsWithHash l then [] else goFields (stripComment l)

/-- The scanner loop over the lines of one dictionary object.  `rec` handles
a $INCLUDE directive (the recursive load of the named object on the shared
dictionary). -/
def parseLines (rec : JRadiusDict → String → ParseResult)
    (dict : JRadiusDict) (idx : Nat) : List String → ParseResult
  | [] => .ok dict
  | line :: rest =>
    match processLine dict idx line with
    | .next dict' idx' => parseLines rec dict' idx' rest
    | .err m => .err m
    | .panics m => .panics m
    | .inc objName =>
      match rec dict objName with
      | .ok dict' => parseLines rec dict' idx rest
      | .err m => .err ("dictionary " ++ objName ++ " with error " ++ m)
      | .panics m => .panics m
      | .outOfFuel => .outOfFuel

/-- Embedding of ParseFreeradiusDictionary.  The configuration store
(GetBytesConfigObject) is the environment `env`, mapping an object name to
its lines; a missing object is the error return of the store.  `fuel`
bounds the $INCLUDE recursion depth of the embedding. -/
def parseFreeradiusDictionary (env : String → Option (List String)) :
    Nat → JRadiusDict → String → ParseResult
  | 0, _, _ => .outOfFuel
  | Nat.succ fuel, dict, configObj =>
    match env configObj with
    | none => .err ("could not get configuration object " ++ configObj)
    | some lines =>
      let dict' := if dict.avps.isEmpty then
          { dict with avps := [{ vendorId := 0, attributes := [] }] } else dict
      parseLines (fun d s => parseFreeradiusDictionary env fuel d s) dict' 0 lines

/-- An ATTRIBUTE option token not supported by the parser (not one of
has_tag, encrypt=1, encrypt=2, encrypt=8, encrypt=9, abinary). -/
def unsupportedOption (o : String) : Bool :=
  o != "has_tag" && o != "encrypt=1" && o != "encrypt=2" && o != "encrypt=8" &&
    o != "encrypt=9" && o != "abinary"

/-- A line whose ATTRIBUTE options word contains a token the parser does not
support. -/
def hasBadOption (words : List String) : Bool :=
  match words with
  | w0 :: _ :: _ :: _ :: opts :: _ =>
    w0 == "ATTRIBUTE" && (splitCommas opts).any unsupportedOption
  | _ => false

/-- A line whose ATTRIBUTE type token is not recognized by parseRadiusType. -/
def hasBadType (words : List String) : Bool :=
  match words with
  | w0 :: _ :: _ :: t :: _ => w0 == "ATTRIBUTE" && (parseRadiusType t).isNone
  | _ => false

/-- A malformed directive: too few words for ATTRIBUTE/VALUE/VENDOR/
BEGIN-VENDOR/$INCLUDE, or a non-numeric code or value. -/
def malformedDirective (words : List String) : Bool :=
  match words with
  | [] => false
  | w0 :: ws =>
    if w0 = "ATTRIBUTE" then decide (ws.length < 3)
    else if w0 = "VALUE" then
      (match ws with
       | _ :: _ :: v :: _ => (atoi v).isNone
       | _ => true)
    else if w0 = "VENDOR" then
      (match ws with
       | _ :: c :: _ => (atoi c).isNone
       | _ => true)
    else if w0 = "BEGIN-VENDOR" then ws.isEmpty
    else if w0 = "$INCLUDE" then ws.isEmpty
    else false

/-- Faulty token lists in the sense of the claim: unsupported ATTRIBUTE flag
token, unrecognized attribute type token, or malformed directive. -/
def faultyWords (words : List String) : Bool :=
  hasBadOption words || hasBadType words || malformedDirective words

/-- A faulty dictionary line. -/
def faultyLine (line : String) : Bool :=
  faultyWords (lineWords line)

/-- The empty dictionary passed to a fresh load. -/
def emptyDict : JRadiusDict := { vendors := [], avps := [] }

/-- A one-object store whose dictionary has an ATTRIBUTE line with an
unrecognized attribute type token. -/
def dictEnvBadType : String → Option (List String) := fun n =>
  if n = "dictionary" then some ["ATTRIBUTE Unknown-Type-Attr 1 weirdtype"] else none

/-- A one-object store whose dictionary has an ATTRIBUTE line with an
unsupported flag token. -/
def dictEnvBadFlag : String → Option (List String) := fun n =>
  if n = "dictionary" then some ["ATTRIBUTE Flagged-Attr 5 integer bogus-flag"] else none

end Freeradius

namespace Radiusserver

/-- Server status: accepting requests. -/
def StatusOperational : Nat := 0

/-- Server status: Close has been called. -/
def StatusTerminated : Nat := 1

/-- Modelled from the spec: the ACCESS_REQUEST packet code (1). -/
def ACCESS_REQUEST : Nat := 1

/-- Modelled from the spec: the fields of core.RadiusPacket the read loop
consults (code, and the identifier used to serialize the response). -/
structure RadiusPacket where
  code : Nat
  identifier : Nat
deriving DecidableEq

/-- Modelled from the spec: a radius-clients table entry (shared secret). -/
structure RadiusClient where
  secret : String
deriving DecidableEq

/-- Environment of the read loop: the collaborator functions it calls.
`findRadiusClient` is keyed by the sender IP; `decodePacket` is
NewRadiusPacketFromBytes (none = decode error); `handler` returns none on a
handler error; `toBytes` is response serialization; `writeOk` is the
outcome of the socket write. -/
structure ServerEnv where
  findRadiusClient : String → Option RadiusClient
  decodePacket : List Nat → String → Option RadiusPacket
  validateRequestAuthenticator : List Nat → String → Bool
  handler : RadiusPacket → Option RadiusPacket
  toBytes : RadiusPacket → String → Nat → Option (List Nat)
  writeOk : Bool

/-- What becomes of one datagram. -/
inductive DatagramOutcome where
  | dropUnknownClient
  | dropDecodeError
  | dropAuthError
  | handlerDrop
  | serializeDrop
  | writeDrop
  | responded (respBytes : List Nat) (addr : String)
deriving DecidableEq

/-- Embedding of the per-datagram body of RadiusServer.readLoop (client
lookup, decode, authenticator validation for non-Access-Request codes,
dispatch, response serialization and send), together with the metric
counters recorded, in order. -/
def processDatagram (env : ServerEnv) (bytes : List Nat) (clientIP : String)
    (clientAddr : String) : DatagramOutcome × List String :=
  match env.findRadiusClient clientIP with
  | none => (.dropUnknownClient, ["RadiusServerDrop"])
  | some client =>
    match env.decodePacket bytes client.secret with
    | none => (.dropDecodeError, [])
    | some radiusPacket =>
      if radiusPacket.code ≠ ACCESS_REQUEST ∧
          ¬ env.validateRequestAuthenticator bytes client.secret then
        (.dropAuthError, ["RadiusServerDrop"])
      else
        match env.handler radiusPacket with
        | none => (.handlerDrop, ["RadiusServerRequest", "RadiusServerDrop"])
        | some response =>
          match env.toBytes response client.secret radiusPacket.identifier with
          | none => (.serializeDrop, ["RadiusServerRequest", "RadiusServerDrop"])
          | some respBuf =>
            if env.writeOk then
              (.responded respBuf clientAddr, ["RadiusServerRequest", "RadiusServerResponse"])
            else
              (.writeDrop, ["RadiusServerRequest", "RadiusServerDrop"])

/-- Outcome of socket.ReadFrom. -/
inductive ReadOutcome where
  | readData (packetSize : Nat) (clientAddr : String)
  | readErr
deriving DecidableEq

/-- What the head of the read loop does with one read outcome. -/
inductive ReadLoopAction where
  | processPacket (packetSize : Nat) (clientAddr : String)
  | returnGraceful
  | panicAction
deriving DecidableEq

/-- Embedding of the error check at the head of RadiusServer.readLoop: a
read error returns gracefully only when the status is Terminated, and
panics otherwise; successful reads proceed to packet processing. -/
def readLoopStep (status : Nat) (r : ReadOutcome) : ReadLoopAction :=
  match r with
  | .readData n addr => .processPacket n addr
  | .readErr =>
    if status = StatusTerminated then .returnGraceful else .panicAction

/-- The server state touched by Close. -/
structure ServerState where
  status : Nat
  socketOpen : Bool
deriving DecidableEq

/-- Embedding of RadiusServer.Close: store Terminated, then close the
socket. -/
def serverClose (s : ServerState) : ServerState :=
  { s with status := StatusTerminated, socketOpen := false }

/-- A concrete server environment: one known client, decode succeeds with an
Access-Request, the handler answers with an Access-Accept. -/
def srvEnv : ServerEnv :=
  { findRadiusClient := fun ip => if ip = "10.0.0.1" then some { secret := "s" } else none
    decodePacket := fun _ _ => some { code := 1, identifier := 9 }
    validateRequestAuthenticator := fun _ _ => false
    handler := fun _ => some { code := 2, identifier := 9 }
    toBytes := fun _ _ _ => some [2, 9]
    writeOk := true }

end Radiusserver

namespace Diampeer

/-- A benign environment for concrete evaluations: writes succeed, the ACL
accepts, no peer is in the configuration. -/
def env0 : Env := { writeOk := true, aclOk := fun _ => true, findPeer := fun _ => none }

/-- An environment whose peers configuration knows client.igorclient. -/
def env1 : Env :=
  { writeOk := true
    aclOk := fun _ => true
    findPeer := fun h =>
      if h = "client.igorclient" then
        some { diameterHost := "client.igorclient", watchdogIntervalMillis := 250 }
      else none }

/-- Peer configuration fixture. -/
def cfg0 : DiameterPeerConfig :=
  { diameterHost := "server.igorserver", watchdogIntervalMillis := 300 }

/-- An Engaged peer with one pending request: hop-by-hop id 1 on channel 7. -/
def stPending : PeerState :=
  { status := StatusEngaged, requestsMap := [(1, 7)], outstandingDWA := 0
    hasCancel := true, hasConnection := true, peerConfig := cfg0 }

/-- A Connected peer with no pending requests. -/
def stConn : PeerState :=
  { status := StatusConnected, requestsMap := [], outstandingDWA := 0
    hasCancel := false, hasConnection := true, peerConfig := cfg0 }

/-- A Closing peer with one pending request: hop-by-hop id 5 on channel 7. -/
def stClosingPending : PeerState :=
  { status := StatusClosing, requestsMap := [(5, 7)], outstandingDWA := 0
    hasCancel := false, hasConnection := true, peerConfig := cfg0 }

/-- A non-base request with hop-by-hop id 5. -/
def reqCC : DiameterMessage :=
  { isRequest := true, applicationId := 4, commandName := "Credit-Control"
    hopByHopId := 5, originHost := none, resultCode := 0 }

/-- A CER carrying no Origin-Host AVP. -/
def cerNoOrigin : DiameterMessage :=
  { isRequest := true, applicationId := 0, commandName := "Capabilities-Exchange"
    hopByHopId := 2, originHost := none, resultCode := 0 }

end Diampeer

namespace Diampeer

/-- C1: processing PeerCloseCommand in the source cancels the connect
context, closes the socket and reports exactly one PeerDown, but — against
the claim and the TODO comment left in the source — it does not drain the
pending requests map: on a peer with a pending entry (hop-by-hop 1,
channel 7) the entry survives untouched and no error is delivered on its
channel. -/
theorem closeCommand_skips_pending_drain :
    eventLoopStep env0 stPending Event.peerCloseCommand =
      { state := { stPending with status := StatusClosed }
        effects := [Effect.cancelConnectContext, Effect.closeConnection,
                    Effect.controlPeerDown none]
        returns := true } := by
  decide

/-- C2 counterexample: with outstandingDWA = 3 (above the threshold 2) a
watchdog tick initiates close and nevertheless still emits a DWR and
increments the counter to 4, against the claim that no DWR is emitted and
the counter is not incremented on the close-triggering tick. -/
theorem watchdog_close_tick_still_emits_dwr :
    eventLoopStep env0 { stPending with outstandingDWA := 3 } Event.watchdog =
      { state := { stPending with outstandingDWA := 4 }
        effects := [Effect.toSelf Event.peerCloseCommand,
                    Effect.toSelf (Event.egress mkDWR none)]
        returns := false } := by
  decide

/-- C2 (amended): on every watchdog tick, a close is initiated exactly when
the outstanding-DWR counter exceeds the threshold 2; in every case
(including the close-triggering tick) a DWR is then emitted and the counter
incremented, the rest of the state unchanged. -/
theorem watchdog_tick_behaviour (env : Env) (st : PeerState) :
    (eventLoopStep env st Event.watchdog).state =
      { st with outstandingDWA := st.outstandingDWA + 1 } ∧
    Effect.toSelf (Event.egress mkDWR none) ∈ (eventLoopStep env st Event.watchdog).effects ∧
    (Effect.toSelf Event.peerCloseCommand ∈ (eventLoopStep env st Event.watchdog).effects ↔
      st.outstandingDWA > 2) := by
  refine ⟨rfl, ?_, ?_⟩ <;>
    by_cases h : st.outstandingDWA > 2 <;>
    simp [eventLoopStep, h]

/-- C3: a Capabilities-Exchange answer received by a Connected peer leads to
Engaged — the PeerUpMsg self-event, whose processing sets status Engaged,
emits PeerUp and restarts the watchdog ticker with the configured interval —
exactly when it carries an Origin-Host equal to the configured DiameterHost
and Result-Code DIAMETER_SUCCESS; any other CEA moves the status to Closing
and initiates close. -/
theorem cea_engages_iff_matching_success (env : Env) (st : PeerState)
    (hbh rc : Nat) (oh : Option String) (hst : st.status = StatusConnected) :
    let msg : DiameterMessage :=
      { isRequest := false, applicationId := 0, commandName := "Capabilities-Exchange"
        hopByHopId := hbh, originHost := oh, resultCode := rc }
    let r1 := eventLoopStep env st (Event.ingress msg)
    ((Effect.toSelf (Event.peerUpMsg st.peerConfig.diameterHost) ∈ r1.effects) ↔
        (oh = some st.peerConfig.diameterHost ∧ rc = DIAMETER_SUCCESS)) ∧
    ((oh = some st.peerConfig.diameterHost ∧ rc = DIAMETER_SUCCESS) →
      r1.state = st ∧
      (eventLoopStep env st (Event.peerUpMsg st.peerConfig.diameterHost)).state.status =
        StatusEngaged ∧
      (eventLoopStep env st (Event.peerUpMsg st.peerConfig.diameterHost)).effects =
        [Effect.controlPeerUp st.peerConfig.diameterHost,
         Effect.restartTicker st.peerConfig.watchdogIntervalMillis]) ∧
    (¬ (oh = some st.peerConfig.diameterHost ∧ rc = DIAMETER_SUCCESS) →
      r1.state.status = StatusClosing ∧
      Effect.toSelf Event.peerCloseCommand ∈ r1.effects) := by
  rcases oh with _ | x
  · simp [eventLoopStep]
  · by_cases hx : x = st.peerConfig.diameterHost
    · subst hx
      by_cases hrc : rc = DIAMETER_SUCCESS
      · subst hrc
        simp [eventLoopStep]
      · simp [eventLoopStep, hrc]
    · simp [eventLoopStep, hx]

/-- C3 witness: a matching success CEA on a concrete Connected peer. -/
theorem cea_engages_iff_matching_success_witness :
    Effect.toSelf (Event.peerUpMsg stConn.peerConfig.diameterHost) ∈
      (eventLoopStep env0 stConn (Event.ingress
        { isRequest := false, applicationId := 0
          commandName := "Capabilities-Exchange", hopByHopId := 5
          originHost := some "server.igorserver", resultCode := 2001 })).effects :=
  ((cea_engages_iff_matching_success env0 stConn 5 2001
      (some "server.igorserver") rfl).1).mpr ⟨rfl, rfl⟩

/-- C4 counterexample: a CER without an Origin-Host AVP received in status
Connected makes the peer initiate close without emitting any CEA: the only
effects are the receive metric and the self close command; in particular no
UNKNOWN_PEER answer is egressed, against the claim. -/
theorem cer_missing_origin_host_closes_without_cea :
    eventLoopStep env0 stConn (Event.ingress cerNoOrigin) =
      { state := stConn
        effects := [Effect.metric "DiameterRequestReceived",
                    Effect.toSelf Event.peerCloseCommand]
        returns := false } ∧
    Effect.toSelf (Event.egress
        (addResultCode (newDiameterAnswer cerNoOrigin) DIAMETER_UNKNOWN_PEER) none) ∉
      (eventLoopStep env0 stConn (Event.ingress cerNoOrigin)).effects := by
  decide

/-- C4 (amended): a CER from a configured peer passing the ACL check is
answered with a success CEA, the peer adopting the found configuration and
becoming Engaged while reporting the remote Origin-Host; a CER whose
Origin-Host fails the ACL check or is not in the configuration is answered
with a CEA carrying DIAMETER_UNKNOWN_PEER followed by close; but when the
status is not Connected or the Origin-Host AVP is absent the peer initiates
close without emitting any CEA. -/
theorem cer_handling (env : Env) (st : PeerState) (hbh rc : Nat)
    (oh : Option String) :
    let msg : DiameterMessage :=
      { isRequest := true, applicationId := 0, commandName := "Capabilities-Exchange"
        hopByHopId := hbh, originHost := oh, resultCode := rc }
    let r := eventLoopStep env st (Event.ingress msg)
    (∀ h pc, st.status = StatusConnected → oh = some h → env.aclOk h = true →
        env.findPeer h = some pc →
      r.effects = [Effect.metric "DiameterRequestReceived",
        Effect.toSelf (Event.egress (addResultCode (newDiameterAnswer msg) DIAMETER_SUCCESS) none),
        Effect.toSelf (Event.peerUpMsg h)] ∧
      r.state.status = StatusEngaged ∧ r.state.peerConfig = pc) ∧
    (∀ h, st.status = StatusConnected → oh = some h →
        (env.aclOk h = false ∨ env.findPeer h = none) →
      r.effects = [Effect.metric "DiameterRequestReceived",
        Effect.toSelf (Event.egress
          (addResultCode (newDiameterAnswer msg) DIAMETER_UNKNOWN_PEER) none),
        Effect.toSelf Event.peerCloseCommand] ∧
      r.state = st) ∧
    ((st.status ≠ StatusConnected ∨ oh = none) →
      r.effects = [Effect.metric "DiameterRequestReceived",
                   Effect.toSelf Event.peerCloseCommand] ∧
      r.state = st) := by
  refine ⟨?_, ?_, ?_⟩
  · intro h pc hst hoh hacl hfind
    subst hoh
    simp [eventLoopStep, handleCER, hst, hacl, hfind]
  · intro h hst hoh hbad
    subst hoh
    rcases hbad with hacl | hfind
    · simp [eventLoopStep, handleCER, hst, hacl]
    · by_cases hacl : env.aclOk h = true
      · simp [eventLoopStep, handleCER, hst, hacl, hfind]
      · simp [eventLoopStep, handleCER, hst, hacl]
  · intro hcase
    rcases hcase with hst | hoh
    · simp [eventLoopStep, handleCER, hst]
    · subst hoh
      by_cases hst : st.status = StatusConnected <;>
        simp [eventLoopStep, handleCER, hst]

/-- C4 witness: a valid CER from client.igorclient on a Connected peer. -/
theorem cer_handling_witness :
    (eventLoopStep env1 stConn (Event.ingress
      { isRequest := true, applicationId := 0
        commandName := "Capabilities-Exchange", hopByHopId := 2
        originHost := some "client.igorclient", resultCode := 0 })).state.status =
      StatusEngaged := by
  have h := (cer_handling env1 stConn 2 0 (some "client.igorclient")).1
    "client.igorclient"
    { diameterHost := "client.igorclient", watchdogIntervalMillis := 250 }
    rfl rfl rfl (by decide)
  exact h.2.1

/-- C5 counterexample: in status Closing with a pending entry for hop-by-hop
id 5, an egress request reusing id 5 with a reply channel is dropped with no
effect at all: no duplicate-id error is delivered on the reply channel,
against the claim. -/
theorem egress_duplicate_ignored_when_closing :
    eventLoopStep env0 stClosingPending (Event.egress reqCC (some 9)) =
      { state := stClosingPending, effects := [], returns := false } := by
  decide

/-- C5 (amended): while the status is Connected or Engaged, an egress
message with a reply channel whose hop-by-hop id is already pending is
rejected with a duplicate-id error delivered on that channel; processing
stops there — no socket write and the state (hence the pending map) is
unchanged.  In any other status the message is discarded with no effect. -/
theorem egress_duplicate_rejected (env : Env) (st : PeerState)
    (msg : DiameterMessage) (ch x : Nat) :
    ((st.status = StatusConnected ∨ st.status = StatusEngaged) →
      mapLookup msg.hopByHopId st.requestsMap = some x →
      eventLoopStep env st (Event.egress msg (some ch)) =
        { state := st
          effects := [Effect.chanSend ch (ChanValue.goError "Duplicated HopByHopId")]
          returns := false }) ∧
    (¬ (st.status = StatusConnected ∨ st.status = StatusEngaged) →
      eventLoopStep env st (Event.egress msg (some ch)) =
        { state := st, effects := [], returns := false }) := by
  constructor
  · intro hs hdup
    simp only [eventLoopStep]
    rw [if_pos hs, hdup]
  · intro hs
    simp only [eventLoopStep]
    rw [if_neg hs]

/-- C5 witness: a duplicate egress request on an Engaged peer with pending
hop-by-hop id 1 is answered with the duplicate-id error on channel 9. -/
theorem egress_duplicate_rejected_witness :
    eventLoopStep env0 stPending (Event.egress
      { isRequest := true, applicationId := 4, commandName := "Credit-Control"
        hopByHopId := 1, originHost := none, resultCode := 0 } (some 9)) =
      { state := stPending
        effects := [Effect.chanSend 9 (ChanValue.goError "Duplicated HopByHopId")]
        returns := false } :=
  (egress_duplicate_rejected env0 stPending
    { isRequest := true, applicationId := 4, commandName := "Credit-Control"
      hopByHopId := 1, originHost := none, resultCode := 0 } 9 7).1 (Or.inr rfl) rfl

/-- C6: a non-base answer is correlated against the pending map: when the
hop-by-hop id is present the answer is delivered on the stored channel, the
channel is closed and the entry removed, the status untouched; when absent
the state is unchanged and the answer is only counted as discarded
("stalled"). -/
theorem nonbase_answer_correlation (env : Env) (st : PeerState)
    (msg : DiameterMessage) (hreq : msg.isRequest = false)
    (happ : msg.applicationId ≠ 0) :
    (∀ ch, mapLookup msg.hopByHopId st.requestsMap = some ch →
      eventLoopStep env st (Event.ingress msg) =
        { state := { st with requestsMap := mapErase msg.hopByHopId st.requestsMap }
          effects := [Effect.metric "DiameterAnswerReceived",
                      Effect.chanSend ch (ChanValue.answer msg), Effect.chanClose ch]
          returns := false }) ∧
    (mapLookup msg.hopByHopId st.requestsMap = none →
      eventLoopStep env st (Event.ingress msg) =
        { state := st
          effects := [Effect.metric "DiameterAnswerReceived",
                      Effect.metric "DiameterAnswerDiscarded"]
          returns := false }) := by
  constructor
  · intro ch hch
    simp [eventLoopStep, hreq, happ, hch]
  · intro hnone
    simp [eventLoopStep, hreq, happ, hnone]

/-- C6 witness: a matching answer for pending id 1 is delivered on channel 7
and the entry removed. -/
theorem nonbase_answer_correlation_witness :
    eventLoopStep env0 stPending (Event.ingress
      { isRequest := false, applicationId := 4, commandName := "Credit-Control"
        hopByHopId := 1, originHost := none, resultCode := 2001 }) =
      { state := { stPending with requestsMap := [] }
        effects := [Effect.metric "DiameterAnswerReceived",
                    Effect.chanSend 7 (ChanValue.answer
                      { isRequest := false, applicationId := 4
                        commandName := "Credit-Control", hopByHopId := 1
                        originHost := none, resultCode := 2001 }),
                    Effect.chanClose 7]
        returns := false } :=
  (nonbase_answer_correlation env0 stPending
    { isRequest := false, applicationId := 4, commandName := "Credit-Control"
      hopByHopId := 1, originHost := none, resultCode := 2001 }
    rfl (by decide)).1 7 rfl

/-- C7: DiameterRequest behaviour: on an Engaged peer with a non-base
request, the timeout outcome sends the egress and then a
CancelDiameterRequest with the message's hop-by-hop id and returns a
Timeout error; processing a CancelDiameterRequest never changes the peer
status; and the three validations (base application, non-Engaged status,
non-request message) return an error without sending anything. -/
theorem diameter_request_behaviour (env : Env) (st : PeerState) (status : Nat)
    (dm : DiameterMessage) (chanId : Nat) (outcome : ReqOutcome) :
    (dm.applicationId ≠ 0 → status = StatusEngaged → dm.isRequest = true →
      DiameterRequest status dm chanId ReqOutcome.timeout =
        { answer := none, error := some "Timeout"
          sent := [Event.egress dm (some chanId), Event.cancelRequest dm.hopByHopId]
          metrics := ["DiameterRequestTimeout"] }) ∧
    (∀ hbh, (eventLoopStep env st (Event.cancelRequest hbh)).state.status = st.status) ∧
    (dm.applicationId = 0 →
      (DiameterRequest status dm chanId outcome).sent = [] ∧
      (DiameterRequest status dm chanId outcome).error =
        some "should not use this method to send a Base Application message") ∧
    (dm.applicationId ≠ 0 → status ≠ StatusEngaged →
      (DiameterRequest status dm chanId outcome).sent = [] ∧
      ((DiameterRequest status dm chanId outcome).error).isSome = true) ∧
    (dm.applicationId ≠ 0 → status = StatusEngaged → dm.isRequest = false →
      (DiameterRequest status dm chanId outcome).sent = [] ∧
      (DiameterRequest status dm chanId outcome).error =
        some "Diameter message is not a request") := by
  refine ⟨?_, ?_, ?_, ?_, ?_⟩
  · intro happ hstat hreq
    simp [DiameterRequest, happ, hstat, hreq]
  · intro hbh
    rcases h : mapLookup hbh st.requestsMap with _ | ch <;>
      simp [eventLoopStep, h]
  · intro happ
    simp [DiameterRequest, happ]
  · intro happ hstat
    simp [DiameterRequest, happ, hstat]
  · intro happ hstat hreq
    simp [DiameterRequest, happ, hstat, hreq]

/-- C7 witness: timeout of a non-base request on an Engaged peer. -/
theorem diameter_request_behaviour_witness :
    DiameterRequest StatusEngaged reqCC 3 ReqOutcome.timeout =
      { answer := none, error := some "Timeout"
        sent := [Event.egress reqCC (some 3), Event.cancelRequest 5]
        metrics := ["DiameterRequestTimeout"] } :=
  (diameter_request_behaviour env0 stPending StatusEngaged reqCC 3
    ReqOutcome.timeout).1 (by decide) rfl rfl

end Diampeer


namespace Freeradius

/-- An options list containing an unsupported token makes the flags loop
return the error marker, whatever flags are already set. -/
theorem applyOptions_eq_none (opts : List String) (acc : Bool × Bool × Bool × Bool)
    (h : opts.any unsupportedOption = true) : applyOptions opts acc = none := by
  induction opts generalizing acc with
  | nil => simp at h
  | cons o rest ih =>
    obtain ⟨t, e, s, w⟩ := acc
    simp only [List.any_cons, Bool.or_eq_true] at h
    simp only [applyOptions]
    split_ifs with h1 h2 h3 h4 h5 h6
    · rcases h with hbad | hrest
      · simp [unsupportedOption, h1] at hbad
      · exact ih _ hrest
    · rcases h with hbad | hrest
      · simp [unsupportedOption, h2] at hbad
      · exact ih _ hrest
    · rcases h with hbad | hrest
      · simp [unsupportedOption, h3] at hbad
      · exact ih _ hrest
    · rcases h with hbad | hrest
      · simp [unsupportedOption, h4] at hbad
      · exact ih _ hrest
    · rcases h with hbad | hrest
      · simp [unsupportedOption, h5] at hbad
      · exact ih _ hrest
    · rcases h with hbad | hrest
      · simp [unsupportedOption, h6] at hbad
      · exact ih _ hrest
    · rfl

/-- A faulty token list makes the line switch fail with an error or a
panic. -/
theorem processWords_failure (dict : JRadiusDict) (idx : Nat) (lineT : String)
    (words : List String) (h : faultyWords words = true) :
    (processWords dict idx lineT words).isFailure = true := by
  rcases words with _ | ⟨w0, _ | ⟨w1, _ | ⟨w2, _ | ⟨w3, _ | ⟨w4, rest⟩⟩⟩⟩⟩
  · simp [faultyWords, hasBadOption, hasBadType, malformedDirective] at h
  · simp only [faultyWords, hasBadOption, hasBadType, malformedDirective,
      Bool.or_eq_true] at h
    simp only [processWords]
    split_ifs at h ⊢ <;> simp_all [LineResult.isFailure]
  · simp only [faultyWords, hasBadOption, hasBadType, malformedDirective,
      Bool.or_eq_true] at h
    simp only [processWords]
    split_ifs at h ⊢ <;> simp_all [LineResult.isFailure]
  · simp only [faultyWords, hasBadOption, hasBadType, malformedDirective,
      Bool.or_eq_true] at h
    simp only [processWords]
    split_ifs at h ⊢ <;>
      simp_all [LineResult.isFailure, Option.isNone_iff_eq_none]
  · -- exactly four words
    simp only [faultyWords, hasBadOption, hasBadType, malformedDirective,
      Bool.or_eq_true] at h
    simp only [processWords]
    split_ifs at h ⊢ <;>
      simp_all [LineResult.isFailure, Option.isNone_iff_eq_none] <;>
      (cases hatoi : atoi w2 <;>
        simp_all [parseOptions, LineResult.isFailure])
  · -- five or more words
    by_cases hA : w0 = "ATTRIBUTE"
    · subst hA
      simp [faultyWords, hasBadOption, hasBadType, malformedDirective,
        Option.isNone_iff_eq_none] at h
      cases hatoi : atoi w2 with
      | none => simp [processWords, hatoi, LineResult.isFailure]
      | some v =>
        cases hopts : applyOptions (splitCommas w4) (false, false, false, false) with
        | none => simp [processWords, hatoi, parseOptions, hopts, LineResult.isFailure]
        | some flags =>
          obtain ⟨tg, en, sa, wl⟩ := flags
          have hbt : parseRadiusType w3 = none := by
            rcases h with (hbad | hbt) | hlen
            · exact absurd (applyOptions_eq_none _ (false, false, false, false)
                (List.any_eq_true.mpr hbad)) (by simp [hopts])
            · exact hbt
            · exact absurd hlen (by omega)
          simp [processWords, hatoi, parseOptions, hopts, hbt, LineResult.isFailure]
    · by_cases hV : w0 = "VALUE"
      · subst hV
        simp [faultyWords, hasBadOption, hasBadType, malformedDirective,
          Option.isNone_iff_eq_none] at h
        simp [processWords, LineResult.isFailure, h]
      · by_cases hVen : w0 = "VENDOR"
        · subst hVen
          simp [faultyWords, hasBadOption, hasBadType, malformedDirective,
            Option.isNone_iff_eq_none] at h
          simp [processWords, LineResult.isFailure, h]
        · simp_all [faultyWords, hasBadOption, hasBadType, malformedDirective,
            hA, hV, hVen]

/-- A faulty raw line makes its processing fail. -/
theorem processLine_failure (dict : JRadiusDict) (idx : Nat) (line : String)
    (hf : faultyLine line = true) : (processLine dict idx line).isFailure = true := by
  simp only [faultyLine, lineWords] at hf
  simp only [processLine]
  by_cases hh : startsWithHash (trimChars line.toList) = true
  · simp only [hh, if_true] at hf
    simp [faultyWords, hasBadOption, hasBadType, malformedDirective] at hf
  · simp only [Bool.not_eq_true] at hh
    simp only [hh, Bool.false_eq_true, if_false] at hf ⊢
    exact processWords_failure _ _ _ _ hf

/-- A faulty line among the scanned lines never lets the scanner loop
succeed. -/
theorem parseLines_not_ok (rec : JRadiusDict → String → ParseResult) :
    ∀ (lines : List String) (dict : JRadiusDict) (idx : Nat) (line : String),
      line ∈ lines → faultyLine line = true →
      (parseLines rec dict idx lines).isOk = false := by
  intro lines
  induction lines with
  | nil => intro dict idx line hmem hf; cases hmem
  | cons l rest ih =>
    intro dict idx line hmem hf
    rcases List.mem_cons.mp hmem with heq | hmem'
    · subst heq
      have hfail := processLine_failure dict idx line hf
      cases hp : processLine dict idx line with
      | next d' i' => rw [hp] at hfail; simp [LineResult.isFailure] at hfail
      | err m => simp [parseLines, hp, ParseResult.isOk]
      | panics m => simp [parseLines, hp, ParseResult.isOk]
      | inc objName => rw [hp] at hfail; simp [LineResult.isFailure] at hfail
    · cases hp : processLine dict idx l with
      | next d' i' =>
        simp only [parseLines, hp]
        exact ih d' i' line hmem' hf
      | err m => simp [parseLines, hp, ParseResult.isOk]
      | panics m => simp [parseLines, hp, ParseResult.isOk]
      | inc objName =>
        simp only [parseLines, hp]
        cases hrec : rec dict objName with
        | ok d' => exact ih d' idx line hmem' hf
        | err m => simp [ParseResult.isOk]
        | panics m => simp [ParseResult.isOk]
        | outOfFuel => simp [ParseResult.isOk]

/-- A line with an unsupported ATTRIBUTE flag token fails with an error
value (not a panic). -/
theorem processLine_err_of_badOption (d : JRadiusDict) (i : Nat) (l : String)
    (h : hasBadOption (lineWords l) = true) :
    LineResult.isErr (processLine d i l) = true := by
  simp only [lineWords, String.toList] at h
  simp only [processLine, String.toList]
  by_cases hh : startsWithHash (trimChars l.data) = true
  · simp [hh, hasBadOption] at h
  · simp only [Bool.not_eq_true] at hh
    simp only [hh, Bool.false_eq_true, if_false] at h ⊢
    generalize goFields (stripComment (trimChars l.data)) = words at h ⊢
    rcases words with _ | ⟨w0, _ | ⟨w1, _ | ⟨w2, _ | ⟨w3, _ | ⟨w4, rest⟩⟩⟩⟩⟩ <;>
      simp only [hasBadOption, Bool.and_eq_true, beq_iff_eq, List.any_eq_true] at h <;>
      try exact Bool.noConfusion h
    obtain ⟨hw0, hbad⟩ := h
    subst hw0
    cases hatoi : atoi w2 with
    | none => simp [processWords, hatoi, LineResult.isErr]
    | some v =>
      have hnone : applyOptions (splitCommas w4) (false, false, false, false) = none :=
        applyOptions_eq_none _ _ (List.any_eq_true.mpr hbad)
      simp [processWords, hatoi, parseOptions, hnone, LineResult.isErr]

/-- An ATTRIBUTE line with a numeric code, no flags and an unrecognized type
token makes processing panic with the source's panic message. -/
theorem processLine_panics_of_badType (d : JRadiusDict) (i : Nat) (l n c t : String)
    (hw : lineWords l = ["ATTRIBUTE", n, c, t])
    (hc : (atoi c).isSome = true) (ht : parseRadiusType t = none) :
    processLine d i l = .panics ("unrecognized attribute type " ++ t) := by
  simp only [lineWords, String.toList] at hw
  simp only [processLine, String.toList]
  by_cases hh : startsWithHash (trimChars l.data) = true
  · simp [hh] at hw
  · simp only [Bool.not_eq_true] at hh
    simp only [hh, Bool.false_eq_true, if_false] at hw ⊢
    rw [hw]
    obtain ⟨v, hv⟩ := Option.isSome_iff_exists.mp hc
    simp [processWords, hv, parseOptions, applyOptions, ht]

/-- C8 counterexample: a dictionary whose single line carries the
unrecognized attribute type token weirdtype makes the load panic — a crash,
not an error value — against the claim that the load fails with a non-nil
error. -/
theorem freeradius_unknown_type_panics :
    parseFreeradiusDictionary dictEnvBadType 2 emptyDict "dictionary" =
      ParseResult.panics "unrecognized attribute type weirdtype" ∧
    ParseResult.isErr (parseFreeradiusDictionary dictEnvBadType 2 emptyDict "dictionary") =
      false := by
  decide

/-- C8 (amended): a dictionary input containing a line with an unsupported
ATTRIBUTE flag token, an unrecognized attribute type token, or a malformed
directive never loads successfully; a reached line with an unsupported flag
token yields an error value, while a reached ATTRIBUTE line with a numeric
code and an unrecognized type token causes a panic (crash) instead of an
error. -/
theorem parseFreeradiusDictionary_faulty_behaviour
    (env : String → Option (List String)) (fuel : Nat) (dict : JRadiusDict)
    (configObj : String) (lines : List String) (line : String) :
    (env configObj = some lines → line ∈ lines → faultyLine line = true →
      (parseFreeradiusDictionary env fuel dict configObj).isOk = false) ∧
    (∀ d i l, hasBadOption (lineWords l) = true →
      LineResult.isErr (processLine d i l) = true) ∧
    (∀ d i l n c t, lineWords l = ["ATTRIBUTE", n, c, t] → (atoi c).isSome = true →
      parseRadiusType t = none →
      processLine d i l = LineResult.panics ("unrecognized attribute type " ++ t)) := by
  refine ⟨?_, processLine_err_of_badOption, processLine_panics_of_badType⟩
  intro henv hmem hf
  cases fuel with
  | zero => simp [parseFreeradiusDictionary, ParseResult.isOk]
  | succ fuel' =>
    simp only [parseFreeradiusDictionary, henv]
    exact parseLines_not_ok _ lines _ 0 line hmem hf

/-- C8 witness: the one-line dictionary with the unsupported flag token
bogus-flag does not load successfully. -/
theorem parseFreeradiusDictionary_faulty_witness :
    (parseFreeradiusDictionary dictEnvBadFlag 2 emptyDict "dictionary").isOk = false :=
  (parseFreeradiusDictionary_faulty_behaviour dictEnvBadFlag 2 emptyDict "dictionary"
    ["ATTRIBUTE Flagged-Attr 5 integer bogus-flag"]
    "ATTRIBUTE Flagged-Attr 5 integer bogus-flag").1
    (by decide) (by decide) (by decide)

end Freeradius

namespace Radiusserver

/-- C9: the per-datagram processing of the RADIUS server read loop: an
unknown sender is dropped with a drop metric; a decoded non-Access-Request
packet failing authenticator validation is dropped with a drop metric; for
an Access-Request the validator is never consulted (the outcome is the same
under any two validators); and a packet passing the checks reaches the
handler, whose successful response, once serialized, is sent back to the
originating address. -/
theorem radius_server_datagram_processing (env : ServerEnv) (bytes : List Nat)
    (clientIP clientAddr : String) :
    (env.findRadiusClient clientIP = none →
      processDatagram env bytes clientIP clientAddr =
        (DatagramOutcome.dropUnknownClient, ["RadiusServerDrop"])) ∧
    (∀ client packet, env.findRadiusClient clientIP = some client →
      env.decodePacket bytes client.secret = some packet →
      packet.code ≠ ACCESS_REQUEST →
      env.validateRequestAuthenticator bytes client.secret = false →
      processDatagram env bytes clientIP clientAddr =
        (DatagramOutcome.dropAuthError, ["RadiusServerDrop"])) ∧
    (∀ v1 v2 client packet, env.findRadiusClient clientIP = some client →
      env.decodePacket bytes client.secret = some packet →
      packet.code = ACCESS_REQUEST →
      processDatagram { env with validateRequestAuthenticator := v1 } bytes clientIP clientAddr =
        processDatagram { env with validateRequestAuthenticator := v2 } bytes clientIP clientAddr) ∧
    (∀ client packet response respBuf, env.findRadiusClient clientIP = some client →
      env.decodePacket bytes client.secret = some packet →
      (packet.code = ACCESS_REQUEST ∨
        env.validateRequestAuthenticator bytes client.secret = true) →
      env.handler packet = some response →
      env.toBytes response client.secret packet.identifier = some respBuf →
      env.writeOk = true →
      processDatagram env bytes clientIP clientAddr =
        (DatagramOutcome.responded respBuf clientAddr,
         ["RadiusServerRequest", "RadiusServerResponse"])) := by
  refine ⟨?_, ?_, ?_, ?_⟩
  · intro hnone
    simp [processDatagram, hnone]
  · intro client packet hfind hdec hcode hval
    simp [processDatagram, hfind, hdec, hcode, hval]
  · intro v1 v2 client packet hfind hdec hcode
    simp [processDatagram, hfind, hdec, hcode]
  · intro client packet response respBuf hfind hdec hpass hhandler hser hwrite
    rcases hpass with hcode | hval
    · simp [processDatagram, hfind, hdec, hcode, hhandler, hser, hwrite]
    · by_cases hcode : packet.code = ACCESS_REQUEST <;>
        simp [processDatagram, hfind, hdec, hcode, hval, hhandler, hser, hwrite]

/-- C9 witness: an Access-Request datagram from the known client 10.0.0.1 is
answered with the serialized handler response to the sender's address. -/
theorem radius_server_datagram_processing_witness :
    processDatagram srvEnv [1] "10.0.0.1" "10.0.0.1:1812" =
      (DatagramOutcome.responded [2, 9] "10.0.0.1:1812",
       ["RadiusServerRequest", "RadiusServerResponse"]) :=
  (radius_server_datagram_processing srvEnv [1] "10.0.0.1" "10.0.0.1:1812").2.2.2
    { secret := "s" } { code := 1, identifier := 9 }
    { code := 2, identifier := 9 } [2, 9]
    (by decide) rfl (Or.inl rfl) rfl rfl rfl

/-- C10: a socket read error in the RADIUS server read loop panics unless
the status is Terminated: the loop returns gracefully on a read error
exactly when the status equals Terminated, the value Close stores, and with
the status still Operational it panics. -/
theorem readLoop_error_panics_unless_terminated (status : Nat) (s : ServerState) :
    readLoopStep StatusOperational ReadOutcome.readErr = ReadLoopAction.panicAction ∧
    (readLoopStep status ReadOutcome.readErr = ReadLoopAction.returnGraceful ↔
      status = StatusTerminated) ∧
    (serverClose s).status = StatusTerminated := by
  refine ⟨by decide, ?_, rfl⟩
  by_cases h : status = StatusTerminated <;> simp [readLoopStep, h]

end Radiusserver
